import Mathlib

/-
Verification of the request-authorization gate of the mcp-weather repository:
the OAuth 2.0 token-introspection verifier (`IntrospectionTokenVerifier.verify_token`
in src/mcp/complex_mcp_server.py and src/mcp/mcp_server.py, identical in both) and
the Origin-validation middleware (`OriginValidationMiddleware.__call__` in
src/mcp/complex_mcp_server.py).

The embedding is shallow: the decoded JSON body of the introspection response is a
`Json` value (Python `None` is `Json.null`); the network interaction is abstracted
as an `IntrospectionOutcome` (transport failure, or a status code plus an optional
decoded body, `none` meaning `.json()` raised). `verify_token` returns the
`Option AccessToken` result paired with a `Bool` recording whether the POST to the
introspection endpoint was issued. Exceptions caught by the source's
`except Exception` are modelled as `none` results; totality of the Lean function
models that no exception escapes `verify_token`. Python string primitives used by
the source are embedded over character lists so that every definition evaluates.
-/

namespace McpWeather

/-- Python `str.startswith`: character-level prefix test, as used by the SSRF
guard of `verify_token` (a tuple argument in the source is a disjunction of
prefix tests). -/
def pyStartsWith (s pre : String) : Bool := pre.data.isPrefixOf s.data

/-- ASCII lower-casing of one character, the fragment of Python `str.lower()`
exercised by HTTP header names. -/
def asciiLowerChar (c : Char) : Char :=
  if 65 ≤ c.toNat ∧ c.toNat ≤ 90 then Char.ofNat (c.toNat + 32) else c

/-- ASCII upper-casing of one character, the fragment of Python `str.upper()`
exercised by HTTP method names. -/
def asciiUpperChar (c : Char) : Char :=
  if 97 ≤ c.toNat ∧ c.toNat ≤ 122 then Char.ofNat (c.toNat - 32) else c

/-- Python `str.lower()` restricted to ASCII letters (header names are ASCII). -/
def asciiLower (s : String) : String := String.mk (s.data.map asciiLowerChar)

/-- Python `str.upper()` restricted to ASCII letters (HTTP methods are ASCII). -/
def asciiUpper (s : String) : String := String.mk (s.data.map asciiUpperChar)

/-- The whitespace characters Python `str.split()` with no argument splits on
(the ASCII ones; scope strings are ASCII per RFC 6749). -/
def isPySpace (c : Char) : Bool :=
  c == ' ' || c == '\t' || c == '\n' || c == '\r' || c == '\x0b' || c == '\x0c'

/-- Splitting a character list at whitespace, keeping (possibly empty)
fragments; `acc` holds the current fragment reversed. -/
def splitAux (acc : List Char) : List Char → List (List Char)
  | [] => [acc.reverse]
  | c :: cs =>
    if isPySpace c then acc.reverse :: splitAux [] cs
    else splitAux (c :: acc) cs

/-- Python `str.split()` with no arguments: split on runs of whitespace,
discarding empty fragments. -/
def pySplit (s : String) : List String :=
  ((splitAux [] s.data).filter fun cs => !cs.isEmpty).map String.mk

/-- A decoded JSON value as produced by `response.json()`. `Json.null` doubles as
Python `None`, which is what `dict.get` returns for an absent key. -/
inductive Json where
  | null : Json
  | bool (b : Bool) : Json
  | num (n : Int) : Json
  | str (s : String) : Json
  | arr (xs : List Json) : Json
  | obj (kvs : List (String × Json)) : Json

/-- Python truthiness of a decoded JSON value, as used by `if not data.get(...)`. -/
def truthy : Json → Bool
  | Json.null => false
  | Json.bool b => b
  | Json.num n => n != 0
  | Json.str s => !s.data.isEmpty
  | Json.arr xs => !xs.isEmpty
  | Json.obj kvs => !kvs.isEmpty

/-- The value passed to the `AccessToken(...)` constructor on the success path of
`verify_token`. `client_id`, `expires_at` and `resource` hold the JSON values the
source passes verbatim (`Json.null` standing for Python `None`). -/
structure AccessToken where
  token : String
  client_id : Json
  scopes : List String
  expires_at : Json
  resource : Json

/-- The observable outcome of the POST to the introspection endpoint:
a transport-level exception (timeout, connection refused, TLS failure), or a
response with a status code and an optional decoded JSON body (`none` when the
body is not well-formed JSON, so `response.json()` raises). -/
inductive IntrospectionOutcome where
  | transportError : IntrospectionOutcome
  | response (status : Nat) (body : Option Json) : IntrospectionOutcome

/-- The fields of `IntrospectionTokenVerifier` set in `__init__`. -/
structure IntrospectionTokenVerifier where
  introspection_endpoint : String
  server_url : String
  validate_resource : Bool

/-- The SSRF guard of `verify_token`:
`self.introspection_endpoint.startswith(("https://", "http://localhost", "http://127.0.0.1"))`.
A plain string-prefix test, not a parse of scheme and host. -/
def endpointAllowed (v : IntrospectionTokenVerifier) : Bool :=
  pyStartsWith v.introspection_endpoint "https://" ||
  pyStartsWith v.introspection_endpoint "http://localhost" ||
  pyStartsWith v.introspection_endpoint "http://127.0.0.1"

/-- The keyword arguments of the `AccessToken(...)` call in `verify_token`,
with the already-computed scope list: `client_id=data.get("client_id", "unknown")`,
`expires_at=data.get("exp")`, `resource=data.get("aud")`. -/
def mkAccessToken (token : String) (kvs : List (String × Json))
    (scopes : List String) : AccessToken :=
  { token := token
    client_id := (kvs.lookup "client_id").getD (Json.str "unknown")
    scopes := scopes
    expires_at := (kvs.lookup "exp").getD Json.null
    resource := (kvs.lookup "aud").getD Json.null }

/-- Interpretation of a decoded JSON object body by `verify_token`:
`if not data.get("active", False): return None`, then the `AccessToken(...)`
construction with `scopes=data.get("scope", "").split() if data.get("scope") else []`.
A truthy non-string `scope` value makes `.split()` raise `AttributeError`, caught
by the enclosing `except` into `None`. -/
def interpretBody (token : String) (kvs : List (String × Json)) : Option AccessToken :=
  if truthy ((kvs.lookup "active").getD (Json.bool false)) then
    if truthy ((kvs.lookup "scope").getD Json.null) then
      match (kvs.lookup "scope").getD Json.null with
      | Json.str s => some (mkAccessToken token kvs (pySplit s))
      | _ => none
    else some (mkAccessToken token kvs [])
  else none

/-- The `try` block of `verify_token` after the POST has been issued: status
check, body decode and `active` interpretation; every exception raised inside it
is caught into `None`. -/
def introspectResult (token : String) : IntrospectionOutcome → Option AccessToken
  | IntrospectionOutcome.transportError => none
  | IntrospectionOutcome.response status body =>
    if status = 200 then
      match body with
      | some (Json.obj kvs) => interpretBody token kvs
      | some _ => none
      | none => none
    else none

/-- `IntrospectionTokenVerifier.verify_token`. Returns the `AccessToken | None`
result together with a flag recording whether the network call was issued.
Note that `self.validate_resource` is never consulted. -/
def verify_token (v : IntrospectionTokenVerifier) (token : String)
    (outcome : IntrospectionOutcome) : Option AccessToken × Bool :=
  if endpointAllowed v then (introspectResult token outcome, true)
  else (none, false)

/-- Two successive verification runs against the same verifier, the same token and
an unchanged Authorization Server (modelled as a function from the posted token to
an introspection outcome). The verifier value is passed unchanged to both runs,
reflecting that the Python method assigns no attribute. -/
def runTwice (v : IntrospectionTokenVerifier) (token : String)
    (authServer : String → IntrospectionOutcome) :
    (Option AccessToken × Bool) × (Option AccessToken × Bool) :=
  (verify_token v token (authServer token), verify_token v token (authServer token))

/-- An inbound ASGI scope as inspected by `OriginValidationMiddleware.__call__`:
its `type`, its optional `method` (the source defaults it to `"GET"`), and its
header list as decoded name/value pairs. -/
structure AsgiScope where
  type : String
  method : Option String
  headers : List (String × String)

/-- Lookup of a header in the dict built by
`{k.decode().lower(): v.decode() for k, v in scope.get("headers", [])}`:
the last pair whose lowercased name matches wins. -/
def lastHeader (hs : List (String × String)) (key : String) : Option String :=
  ((hs.filterMap fun p => if asciiLower p.1 = key then some p.2 else none).getLast?)

/-- What the middleware does with a request: forward it to the wrapped app, or
short-circuit with a `JSONResponse` of the given status and JSON-object body. -/
inductive GuardResult where
  | passthrough : GuardResult
  | reject (status : Nat) (body : List (String × Json)) : GuardResult

/-- The fields of `OriginValidationMiddleware` set in `__init__` (the wrapped app
aside). `allowed` models `set(allowed_origins)`; membership is exact string
equality either way. -/
structure OriginValidationMiddleware where
  allowed : List String
  allow_no_origin : Bool

/-- `OriginValidationMiddleware.__call__`, as a decision on the inbound scope. -/
def originCall (m : OriginValidationMiddleware) (sc : AsgiScope) : GuardResult :=
  if sc.type ≠ "http" then GuardResult.passthrough
  else if asciiUpper (sc.method.getD "GET") = "OPTIONS" then GuardResult.passthrough
  else
    match lastHeader sc.headers "origin" with
    | none =>
      if !m.allow_no_origin then
        GuardResult.reject 403 [("error", Json.str "Origin required")]
      else GuardResult.passthrough
    | some origin =>
      if !m.allowed.contains origin then
        GuardResult.reject 403 [("error", Json.str "Origin not allowed")]
      else GuardResult.passthrough

/-- C1: the source stores `validate_resource` but `verify_token` never consults
it: flipping the strict flag changes no outcome, and with the flag enabled and an
active response whose `aud` differs from this server's canonical URL,
`verify_token` still returns a full identity (so the framework answers 200, not
the 403 the spec requires). -/
theorem C1_strict_flag_never_enforced :
    (∀ (ep su token : String) (outcome : IntrospectionOutcome),
      verify_token
        { introspection_endpoint := ep, server_url := su, validate_resource := true }
        token outcome =
      verify_token
        { introspection_endpoint := ep, server_url := su, validate_resource := false }
        token outcome) ∧
    verify_token
      { introspection_endpoint := "https://rtlm.info:9001/introspect"
        server_url := "https://rtlm.info:9000/"
        validate_resource := true }
      "tok"
      (IntrospectionOutcome.response 200 (some (Json.obj
        [("active", Json.bool true), ("aud", Json.str "https://attacker.example/")])))
      = (some { token := "tok", client_id := Json.str "unknown", scopes := []
              , expires_at := Json.null
              , resource := Json.str "https://attacker.example/" }, true) :=
  ⟨fun _ _ _ _ => rfl, rfl⟩

/-- C2 counterexample: `http://localhost.evil.example/...` has scheme `http` and
host `localhost.evil.example` (neither `localhost` nor `127.0.0.1`), so the claim
says no identity and no network call; but the guard is a string-prefix test, the
POST is issued (second component `true`) and an identity is returned. -/
theorem C2_counterexample :
    verify_token
      { introspection_endpoint := "http://localhost.evil.example/introspect"
        server_url := "https://rtlm.info:9000/"
        validate_resource := false }
      "tok"
      (IntrospectionOutcome.response 200 (some (Json.obj [("active", Json.bool true)])))
      = (some { token := "tok", client_id := Json.str "unknown", scopes := []
              , expires_at := Json.null, resource := Json.null }, true) := rfl

/-- C2 amended: for every configured endpoint URL that does not start with the
literal strings "https://", "http://localhost" or "http://127.0.0.1",
`verify_token` returns no identity and issues no network call. -/
theorem C2_ssrf_guard_rejects_without_network (v : IntrospectionTokenVerifier)
    (token : String) (outcome : IntrospectionOutcome)
    (h1 : pyStartsWith v.introspection_endpoint "https://" = false)
    (h2 : pyStartsWith v.introspection_endpoint "http://localhost" = false)
    (h3 : pyStartsWith v.introspection_endpoint "http://127.0.0.1" = false) :
    verify_token v token outcome = (none, false) := by
  unfold verify_token endpointAllowed
  rw [h1, h2, h3]
  rfl

/-- C2 witness: a concrete unsafe endpoint is rejected with no network call. -/
theorem C2_ssrf_guard_witness :
    verify_token
      { introspection_endpoint := "ftp://internal.service/introspect"
        server_url := "https://rtlm.info:9000/", validate_resource := false }
      "tok" IntrospectionOutcome.transportError = (none, false) :=
  C2_ssrf_guard_rejects_without_network _ "tok" _ rfl rfl rfl

/-- C3 counterexample: the response body with `active` the number 1 (truthy but
not the boolean `true`) yields an identity, where the claim demands none. -/
theorem C3_counterexample :
    verify_token
      { introspection_endpoint := "https://rtlm.info:9001/introspect"
        server_url := "https://rtlm.info:9000/", validate_resource := false }
      "tok"
      (IntrospectionOutcome.response 200 (some (Json.obj [("active", Json.num 1)])))
      = (some { token := "tok", client_id := Json.str "unknown", scopes := []
              , expires_at := Json.null, resource := Json.null }, true) := rfl

/-- C3 amended: an identity is constructed only from a 200 response with a JSON
object body whose `active` field is truthy in the Python sense (missing, `false`,
`null`, `0` and `""` all yield no identity; truthy non-booleans such as `1` or a
non-empty string do construct one). -/
theorem C3_identity_requires_truthy_active (v : IntrospectionTokenVerifier)
    (token : String) (outcome : IntrospectionOutcome) (i : AccessToken)
    (h : (verify_token v token outcome).1 = some i) :
    ∃ kvs, outcome = IntrospectionOutcome.response 200 (some (Json.obj kvs)) ∧
      truthy ((kvs.lookup "active").getD (Json.bool false)) = true := by
  unfold verify_token at h
  by_cases hEA : endpointAllowed v = true
  · rw [if_pos hEA] at h
    simp only at h
    cases outcome with
    | transportError => simp [introspectResult] at h
    | response status body =>
      simp only [introspectResult] at h
      split at h
      · next hst =>
        subst hst
        split at h
        · next kvs =>
          refine ⟨kvs, rfl, ?_⟩
          unfold interpretBody at h
          by_cases hact : truthy ((kvs.lookup "active").getD (Json.bool false)) = true
          · exact hact
          · rw [if_neg hact] at h; exact absurd h (by simp)
        · exact absurd h (by simp)
        · exact absurd h (by simp)
      · exact absurd h (by simp)
  · rw [if_neg hEA] at h
    exact absurd h (by simp)

/-- C3 witness: the amended theorem applied at an active-true response. -/
theorem C3_identity_requires_truthy_active_witness :
    ∃ kvs,
      (IntrospectionOutcome.response 200
          (some (Json.obj [("active", Json.bool true)])) : IntrospectionOutcome)
        = IntrospectionOutcome.response 200 (some (Json.obj kvs)) ∧
      truthy ((kvs.lookup "active").getD (Json.bool false)) = true :=
  C3_identity_requires_truthy_active
    { introspection_endpoint := "https://rtlm.info:9001/introspect"
      server_url := "https://rtlm.info:9000/", validate_resource := false }
    "tok" _
    { token := "tok", client_id := Json.str "unknown", scopes := []
      expires_at := Json.null, resource := Json.null } rfl

/-- C4: a transport failure, a non-200 status, or a body that is not well-formed
JSON each yield no identity; `verify_token` is total (the Lean embedding of the
fact that the source catches every exception inside its `try`). -/
theorem C4_failures_yield_no_identity (v : IntrospectionTokenVerifier)
    (token : String) :
    (verify_token v token IntrospectionOutcome.transportError).1 = none ∧
    (∀ (status : Nat) (body : Option Json), status ≠ 200 →
      (verify_token v token (IntrospectionOutcome.response status body)).1 = none) ∧
    (∀ status : Nat,
      (verify_token v token (IntrospectionOutcome.response status none)).1 = none) := by
  refine ⟨?_, ?_, ?_⟩
  · unfold verify_token; split <;> rfl
  · intro status body hst
    unfold verify_token
    split
    · show introspectResult token (IntrospectionOutcome.response status body) = none
      simp [introspectResult, hst]
    · rfl
  · intro status
    unfold verify_token
    split
    · show introspectResult token (IntrospectionOutcome.response status none) = none
      simp only [introspectResult]
      split <;> rfl
    · rfl

/-- C4 witness: a concrete 500 response with an unreadable body yields none. -/
theorem C4_failures_witness :
    (verify_token
      { introspection_endpoint := "https://rtlm.info:9001/introspect"
        server_url := "https://rtlm.info:9000/", validate_resource := false }
      "tok" (IntrospectionOutcome.response 500 none)).1 = none :=
  (C4_failures_yield_no_identity _ "tok").2.1 500 none (by decide)

/-- Helper: every identity produced by `interpretBody` is an `mkAccessToken`
value for some scope list, and when the body has no `scope` key that scope list
is empty. -/
theorem interpretBody_some_eq (token : String) (kvs : List (String × Json))
    (i : AccessToken) (h : interpretBody token kvs = some i) :
    ∃ scopes : List String, i = mkAccessToken token kvs scopes ∧
      (kvs.lookup "scope" = none → scopes = []) := by
  unfold interpretBody at h
  by_cases hact : truthy ((kvs.lookup "active").getD (Json.bool false)) = true
  · rw [if_pos hact] at h
    by_cases hsc : truthy ((kvs.lookup "scope").getD Json.null) = true
    · rw [if_pos hsc] at h
      revert h
      cases hval : (kvs.lookup "scope").getD Json.null with
      | str s =>
        intro h
        injection h with h
        subst h
        refine ⟨pySplit s, rfl, fun hnone => ?_⟩
        rw [hnone] at hsc
        simp [truthy] at hsc
      | null => intro h; exact absurd h (by simp)
      | bool b => intro h; exact absurd h (by simp)
      | num n => intro h; exact absurd h (by simp)
      | arr xs => intro h; exact absurd h (by simp)
      | obj kvs2 => intro h; exact absurd h (by simp)
    · rw [if_neg hsc] at h
      injection h with h
      subst h
      exact ⟨[], rfl, fun _ => rfl⟩
  · rw [if_neg hact] at h
    exact absurd h (by simp)

/-- C5: for an HTTP request whose (upper-cased) method is not OPTIONS and which
carries an `Origin` header, the middleware forwards it exactly when the header
value is a member of the allow-list (exact string equality), and otherwise
rejects it with 403 and body error: Origin not allowed. -/
theorem C5_origin_exact_membership (m : OriginValidationMiddleware) (sc : AsgiScope)
    (htype : sc.type = "http")
    (hmethod : asciiUpper (sc.method.getD "GET") ≠ "OPTIONS")
    (origin : String)
    (horigin : lastHeader sc.headers "origin" = some origin) :
    originCall m sc =
      (if m.allowed.contains origin then GuardResult.passthrough
       else GuardResult.reject 403 [("error", Json.str "Origin not allowed")]) := by
  unfold originCall
  rw [if_neg (by simp [htype]), if_neg hmethod, horigin]
  by_cases hc : origin ∈ m.allowed <;> simp [hc]

/-- C5 witness: a concrete non-allow-listed Origin is rejected with 403. -/
theorem C5_origin_exact_membership_witness :
    originCall { allowed := ["https://app.example"], allow_no_origin := true }
      { type := "http", method := some "POST"
        headers := [("Origin", "https://evil.example")] }
      = GuardResult.reject 403 [("error", Json.str "Origin not allowed")] :=
  C5_origin_exact_membership _ _ rfl (by decide) "https://evil.example" rfl

/-- C6: for an HTTP request whose (upper-cased) method is not OPTIONS and which
has no `Origin` header, the middleware forwards it when `allow_no_origin` is
true and rejects it with 403 and body error: Origin required otherwise. -/
theorem C6_missing_origin (m : OriginValidationMiddleware) (sc : AsgiScope)
    (htype : sc.type = "http")
    (hmethod : asciiUpper (sc.method.getD "GET") ≠ "OPTIONS")
    (horigin : lastHeader sc.headers "origin" = none) :
    originCall m sc =
      (if m.allow_no_origin then GuardResult.passthrough
       else GuardResult.reject 403 [("error", Json.str "Origin required")]) := by
  unfold originCall
  rw [if_neg (by simp [htype]), if_neg hmethod, horigin]
  cases hno : m.allow_no_origin <;> simp [hno]

/-- C6 witness: a concrete Origin-less request with `allow_no_origin = false`
is rejected with 403 and the Origin-required body. -/
theorem C6_missing_origin_witness :
    originCall { allowed := ["https://app.example"], allow_no_origin := false }
      { type := "http", method := some "POST", headers := [] }
      = GuardResult.reject 403 [("error", Json.str "Origin required")] :=
  C6_missing_origin _ _ rfl (by decide) rfl

/-- C7: an OPTIONS request is always forwarded, whatever its headers, and a
non-HTTP scope is always forwarded untouched. -/
theorem C7_options_and_non_http_pass (m : OriginValidationMiddleware)
    (sc : AsgiScope) :
    (sc.type = "http" → asciiUpper (sc.method.getD "GET") = "OPTIONS" →
      originCall m sc = GuardResult.passthrough) ∧
    (sc.type ≠ "http" → originCall m sc = GuardResult.passthrough) := by
  constructor
  · intro h1 h2
    unfold originCall
    rw [if_neg (by simp [h1]), if_pos h2]
  · intro h
    unfold originCall
    rw [if_pos h]

/-- C7 witness: an OPTIONS request with a non-allow-listed Origin still passes. -/
theorem C7_options_witness :
    originCall { allowed := [], allow_no_origin := false }
      { type := "http", method := some "OPTIONS"
        headers := [("origin", "https://evil.example")] }
      = GuardResult.passthrough :=
  (C7_options_and_non_http_pass
    { allowed := [], allow_no_origin := false }
    { type := "http", method := some "OPTIONS"
      headers := [("origin", "https://evil.example")] }).1 rfl rfl

/-- C8: the documented introspection response produces subject abc and scope
list user, read (the space-delimited scope string split); and on any active
object body, a missing `client_id` defaults the subject to unknown and a
missing `scope` yields the empty scope list. -/
theorem C8_identity_field_mapping (v : IntrospectionTokenVerifier)
    (token : String) (hok : endpointAllowed v = true) :
    (verify_token v token (IntrospectionOutcome.response 200 (some (Json.obj
        [("active", Json.bool true), ("client_id", Json.str "abc"),
         ("scope", Json.str "user read")])))).1
      = some { token := token, client_id := Json.str "abc"
             , scopes := ["user", "read"]
             , expires_at := Json.null, resource := Json.null } ∧
    (∀ (kvs : List (String × Json)) (i : AccessToken),
      (verify_token v token
          (IntrospectionOutcome.response 200 (some (Json.obj kvs)))).1 = some i →
      (kvs.lookup "client_id" = none → i.client_id = Json.str "unknown") ∧
      (kvs.lookup "scope" = none → i.scopes = [])) := by
  constructor
  · unfold verify_token
    rw [if_pos hok]
    rfl
  · intro kvs i h
    unfold verify_token at h
    rw [if_pos hok] at h
    obtain ⟨scopes, hi, hscn⟩ := interpretBody_some_eq token kvs i h
    subst hi
    refine ⟨fun hcid => ?_, fun hscope => ?_⟩
    · simp [mkAccessToken, hcid]
    · simp [mkAccessToken, hscn hscope]

/-- C8 witness: the mapping theorem applied at a concrete verifier. -/
theorem C8_identity_field_mapping_witness :
    (verify_token
      { introspection_endpoint := "https://rtlm.info:9001/introspect"
        server_url := "https://rtlm.info:9000/", validate_resource := false }
      "tok"
      (IntrospectionOutcome.response 200 (some (Json.obj
        [("active", Json.bool true), ("client_id", Json.str "abc"),
         ("scope", Json.str "user read")])))).1
      = some { token := "tok", client_id := Json.str "abc"
             , scopes := ["user", "read"]
             , expires_at := Json.null, resource := Json.null } :=
  (C8_identity_field_mapping
    { introspection_endpoint := "https://rtlm.info:9001/introspect"
      server_url := "https://rtlm.info:9000/", validate_resource := false }
    "tok" rfl).1

/-- C9: with the verifier value, the token and the Authorization Server response
map unchanged, two successive verification runs produce the same result; the
embedded `verify_token` threads no mutable state (the Python method reads its
attributes and assigns none). -/
theorem C9_repeat_verification_agrees (v : IntrospectionTokenVerifier)
    (token : String) (authServer : String → IntrospectionOutcome) :
    (runTwice v token authServer).1 = (runTwice v token authServer).2 := rfl

/-- C10: every identity returned by `verify_token` carries the input token
string verbatim, and its `expires_at` and `resource` fields are exactly the
response's `exp` and `aud` values, `Json.null` (Python None) when absent. -/
theorem C10_verbatim_token_exp_aud (v : IntrospectionTokenVerifier)
    (token : String) (kvs : List (String × Json)) (i : AccessToken)
    (h : (verify_token v token
        (IntrospectionOutcome.response 200 (some (Json.obj kvs)))).1 = some i) :
    i.token = token ∧ i.expires_at = (kvs.lookup "exp").getD Json.null ∧
      i.resource = (kvs.lookup "aud").getD Json.null := by
  unfold verify_token at h
  by_cases hok : endpointAllowed v = true
  · rw [if_pos hok] at h
    obtain ⟨scopes, hi, -⟩ := interpretBody_some_eq token kvs i h
    subst hi
    exact ⟨rfl, rfl, rfl⟩
  · rw [if_neg hok] at h
    exact absurd h (by simp)

/-- C10 witness: the verbatim-fields theorem applied at a response carrying
concrete `exp` and `aud` values. -/
theorem C10_verbatim_token_exp_aud_witness :
    ({ token := "tok", client_id := Json.str "unknown", scopes := []
       expires_at := Json.num 1750000000
       resource := Json.str "https://rtlm.info:9000/" } : AccessToken).token
        = "tok" ∧
    ({ token := "tok", client_id := Json.str "unknown", scopes := []
       expires_at := Json.num 1750000000
       resource := Json.str "https://rtlm.info:9000/" } : AccessToken).expires_at
        = (([("active", Json.bool true), ("exp", Json.num 1750000000),
             ("aud", Json.str "https://rtlm.info:9000/")]
            : List (String × Json)).lookup "exp").getD Json.null ∧
    ({ token := "tok", client_id := Json.str "unknown", scopes := []
       expires_at := Json.num 1750000000
       resource := Json.str "https://rtlm.info:9000/" } : AccessToken).resource
        = (([("active", Json.bool true), ("exp", Json.num 1750000000),
             ("aud", Json.str "https://rtlm.info:9000/")]
            : List (String × Json)).lookup "aud").getD Json.null :=
  C10_verbatim_token_exp_aud
    { introspection_endpoint := "https://rtlm.info:9001/introspect"
      server_url := "https://rtlm.info:9000/", validate_resource := false }
    "tok"
    [("active", Json.bool true), ("exp", Json.num 1750000000),
     ("aud", Json.str "https://rtlm.info:9000/")]
    { token := "tok", client_id := Json.str "unknown", scopes := []
      expires_at := Json.num 1750000000
      resource := Json.str "https://rtlm.info:9000/" } rfl

end McpWeather
